import Mathlib

/-!
# Verification of `generate_random_value` (src/src/c/noiseval.c)

The repository consists of a single C function:

```c
double generate_random_value(int x, int y, int seed) {
    int n = ((x * 157) + (y * 31337) + (seed * 2633)) & 0x7fffffff;
    n = (n << 13) ^ n;
    return (1.0 - ((n * (n * n * 15731 + 789221) + 1376312579) & 0x7fffffff) / 1073741824.0);
}
```

## Embedding choices

* A 32-bit `int` is modelled by its unsigned bit pattern, a `Nat` below
  `4294967296 = 2^32`.  Two's-complement wraparound multiplication,
  addition and left shift on bit patterns are exactly the corresponding
  `Nat` operations followed by `% 4294967296`; `&` and `^` are the
  bitwise `Nat` operations `&&&` and `^^^`.  A signed argument
  `x : Int` enters as its bit pattern `(x % 4294967296).toNat`, and a
  bit pattern `u` is read back as the signed value `u` when
  `u < 2^31` and `u - 2^32` otherwise (`toSigned`).
* The floating-point tail is exact, so the result is modelled in `ℚ`:
  the masked value `m` satisfies `0 ≤ m ≤ 2^31 - 1 < 2^53`, hence `m`
  converts to `double` exactly; `m / 1073741824.0` divides by the power
  of two `2^30`, which only shifts the exponent and is exact; and
  `1.0 - m/2^30` is a difference of two multiples of `2^-30` whose exact
  value has magnitude at most `2^30`, hence is representable and is
  returned exactly by IEEE-754 round-to-nearest subtraction.  Every
  double produced by the C code is therefore exactly the rational
  `1 - m/2^30` computed here.
-/

/-- The unsigned 32-bit bit pattern of a signed integer value
(two's-complement): its residue modulo `2^32`, as a `Nat`. -/
def toU32 (x : Int) : Nat := (x % 4294967296).toNat

/-- 32-bit wraparound multiplication on bit patterns (C `*` on `int`,
with the wraparound semantics the specification prescribes). -/
def mul32 (a b : Nat) : Nat := a * b % 4294967296

/-- 32-bit wraparound addition on bit patterns (C `+` on `int`). -/
def add32 (a b : Nat) : Nat := (a + b) % 4294967296

/-- 32-bit wraparound left shift on bit patterns (C `<<` on `int`). -/
def shl32 (a k : Nat) : Nat := (a <<< k) % 4294967296

/-- The signed `int` value denoted by a 32-bit bit pattern. -/
def toSigned (u : Nat) : Int := if u < 2147483648 then (u : Int) else (u : Int) - 4294967296

/-- Line 2 of `generate_random_value`:
`int n = ((x * 157) + (y * 31337) + (seed * 2633)) & 0x7fffffff;`. -/
def step1 (x y seed : Int) : Nat :=
  add32 (add32 (mul32 (toU32 x) 157) (mul32 (toU32 y) 31337)) (mul32 (toU32 seed) 2633) &&& 0x7fffffff

/-- Line 3 of `generate_random_value`: `n = (n << 13) ^ n;`. -/
def step2 (n : Nat) : Nat := shl32 n 13 ^^^ n

/-- The masked integer of line 4 of `generate_random_value`:
`(n * (n * n * 15731 + 789221) + 1376312579) & 0x7fffffff`. -/
def step3 (n : Nat) : Nat :=
  add32 (mul32 n (add32 (mul32 (mul32 n n) 15731) 789221)) 1376312579 &&& 0x7fffffff

/-- `generate_random_value` from src/src/c/noiseval.c.  The returned
double is exact (see the header comment), so it is modelled as the
rational it denotes. -/
def generate_random_value (x y seed : Int) : ℚ :=
  1 - (step3 (step2 (step1 x y seed)) : ℚ) / 1073741824

/-! ## Basic facts about the steps -/

/-- Masking with `0x7fffffff` keeps the low 31 bits: it is reduction
modulo `2^31 = 2147483648`. -/
theorem mask_eq_mod (a : Nat) : a &&& 0x7fffffff = a % 2147483648 := by
  have h : (0x7fffffff : Nat) = 2 ^ 31 - 1 := by norm_num
  rw [h, Nat.and_pow_two_sub_one_eq_mod]

theorem step1_lt (x y seed : Int) : step1 x y seed < 2147483648 := by
  unfold step1
  rw [mask_eq_mod]
  exact Nat.mod_lt _ (by norm_num)

theorem step3_lt (n : Nat) : step3 n < 2147483648 := by
  unfold step3
  rw [mask_eq_mod]
  exact Nat.mod_lt _ (by norm_num)

theorem toU32_cast (x : Int) : (toU32 x : Int) = x % 4294967296 :=
  Int.toNat_of_nonneg (Int.emod_nonneg x (by norm_num))

theorem add_mod_collapse (a b c : Nat) :
    ((a % 4294967296 + b % 4294967296) % 4294967296 + c % 4294967296) % 4294967296
      = (a + b + c) % 4294967296 := by
  omega

/-- The wrapped sum of the three wrapped products of line 2 equals the
single reduction modulo `2^32` of the exact integer linear combination. -/
theorem sum32_eq (x y seed : Int) :
    (toU32 x * 157 + toU32 y * 31337 + toU32 seed * 2633) % 4294967296
      = ((x * 157 + y * 31337 + seed * 2633) % 4294967296).toNat := by
  have hmod : ((x % 4294967296) * 157 + (y % 4294967296) * 31337 + (seed % 4294967296) * 2633)
        % 4294967296 = (x * 157 + y * 31337 + seed * 2633) % 4294967296 := by
    have hx : x % 4294967296 ≡ x [ZMOD 4294967296] := Int.emod_emod_of_dvd x dvd_rfl
    have hy : y % 4294967296 ≡ y [ZMOD 4294967296] := Int.emod_emod_of_dvd y dvd_rfl
    have hs : seed % 4294967296 ≡ seed [ZMOD 4294967296] := Int.emod_emod_of_dvd seed dvd_rfl
    exact ((hx.mul_right 157).add (hy.mul_right 31337)).add (hs.mul_right 2633)
  have h2 : (((toU32 x * 157 + toU32 y * 31337 + toU32 seed * 2633) % 4294967296 : Nat) : Int)
      = (x * 157 + y * 31337 + seed * 2633) % 4294967296 := by
    push_cast [toU32_cast]
    rw [← hmod]
  omega

/-- The per-operation wraparounds of line 2 collapse to a single
reduction of the exact integer linear combination modulo `2^32`. -/
theorem step1_eq (x y seed : Int) :
    step1 x y seed = ((x * 157 + y * 31337 + seed * 2633) % 4294967296).toNat % 2147483648 := by
  unfold step1 add32 mul32
  rw [mask_eq_mod, add_mod_collapse, sum32_eq]

/-- The per-operation wraparounds of line 4 collapse to a single
reduction of the exact integer polynomial modulo `2^32`. -/
theorem step3_eq (n : Nat) :
    step3 n = ((n * (n * n * 15731 + 789221) + 1376312579) % 4294967296) &&& 0x7fffffff := by
  unfold step3 add32 mul32
  rw [mask_eq_mod, mask_eq_mod]
  have h : (n * ((n * n % 4294967296 * 15731 % 4294967296 + 789221) % 4294967296) % 4294967296
        + 1376312579) % 4294967296
      = (n * (n * n * 15731 + 789221) + 1376312579) % 4294967296 :=
    Nat.ModEq.add_right _ ((Nat.mod_modEq _ _).trans (Nat.ModEq.mul_left n
      ((Nat.mod_modEq _ _).trans (Nat.ModEq.add_right _ ((Nat.mod_modEq _ _).trans
        (Nat.ModEq.mul_right _ (Nat.mod_modEq _ _)))))))
  rw [h]

/-- The masked value of line 4 is always odd: writing the inner
expression modulo 2, the product `n * (n*n*15731 + 789221)` is even for
every `n` (it is `n * (n + 1)` modulo 2) and the constant `1376312579`
is odd. -/
theorem step3_odd (n : Nat) : step3 n % 2 = 1 := by
  unfold step3 add32 mul32
  have hmask : (0x7fffffff : Nat) = 2 ^ 31 - 1 := by norm_num
  rw [hmask, Nat.and_pow_two_sub_one_eq_mod]
  have h31 : (2 : Nat) ∣ 2 ^ 31 := dvd_pow_self 2 (by norm_num)
  have h32 : (2 : Nat) ∣ 4294967296 := by norm_num
  have drop : ∀ a : Nat, a % 4294967296 ≡ a [MOD 2] := fun a => Nat.mod_mod_of_dvd a h32
  have hE : (n * ((n * n % 4294967296 * 15731 % 4294967296 + 789221) % 4294967296) % 4294967296
      + 1376312579) ≡ (n * (n * n * 15731 + 789221) + 1376312579) [MOD 2] :=
    Nat.ModEq.add_right _ ((drop _).trans (Nat.ModEq.mul_left n
      ((drop _).trans (Nat.ModEq.add_right _ ((drop _).trans
        (Nat.ModEq.mul_right _ (drop _)))))))
  have heven : Even (n * (n * n * 15731 + 789221)) := by
    rcases Nat.even_or_odd n with h | h
    · exact h.mul_right _
    · exact Even.mul_left (Odd.add_odd ((h.mul h).mul ⟨7865, by norm_num⟩)
        ⟨394610, by norm_num⟩) n
  rw [Nat.mod_mod_of_dvd _ h31, Nat.mod_mod_of_dvd _ h32]
  have hE' : (n * ((n * n % 4294967296 * 15731 % 4294967296 + 789221) % 4294967296) % 4294967296
      + 1376312579) % 2 = (n * (n * n * 15731 + 789221) + 1376312579) % 2 := hE
  rw [hE']
  obtain ⟨k, hk⟩ := heven
  rw [hk]
  omega

theorem step3_pos (n : Nat) : 1 ≤ step3 n := by
  rcases Nat.eq_zero_or_pos (step3 n) with h | h
  · have := step3_odd n
    rw [h] at this
    simp at this
  · exact h

/-! ## The reference algorithm as the specification words it

For the bit-for-bit compatibility claim, the three-step algorithm is
written down a second time following the specification text literally:
one wraparound reduction per step applied to the exact integer
expression, the mask written as `&&& 0x7fffffff`, the shift as `<<<`. -/

/-- The specification's reference algorithm, step for step:
`n = (x * 157 + y * 31337 + seed * 2633) & 0x7fffffff` under 32-bit
wraparound, then `n = (n << 13) XOR n` with a wraparound shift, then
`1.0 - ((n*(n*n*15731 + 789221) + 1376312579) & 0x7fffffff) / 1073741824.0`
with wraparound inner arithmetic. -/
def referenceValue (x y seed : Int) : ℚ :=
  let n1 : Nat := ((x * 157 + y * 31337 + seed * 2633) % 4294967296).toNat &&& 0x7fffffff
  let n2 : Nat := ((n1 <<< 13) % 4294967296) ^^^ n1
  let m : Nat := ((n2 * (n2 * n2 * 15731 + 789221) + 1376312579) % 4294967296) &&& 0x7fffffff
  1 - (m : ℚ) / 1073741824

/-- C1: For every input triple `(x, y, seed)`, `generate_random_value`
computes exactly the three-step reference algorithm under 32-bit
two's-complement wraparound arithmetic, bit for bit: first
`n1 = (x*157 + y*31337 + seed*2633) & 0x7fffffff`, then
`n2 = (n1 << 13) XOR n1`, and the returned double is
`1.0 - ((n2*(n2*n2*15731 + 789221) + 1376312579) & 0x7fffffff) / 1073741824.0`. -/
theorem generate_random_value_eq_reference (x y seed : Int) :
    generate_random_value x y seed = referenceValue x y seed := by
  have h1 : step1 x y seed
      = ((x * 157 + y * 31337 + seed * 2633) % 4294967296).toNat &&& 0x7fffffff := by
    rw [mask_eq_mod, step1_eq]
  have h2 : ∀ n : Nat, step2 n = ((n <<< 13) % 4294967296) ^^^ n := fun n => rfl
  unfold generate_random_value referenceValue
  rw [h1, h2, step3_eq]

/-- C2: For every input triple — in particular every triple of signed
32-bit integers, including large-magnitude values such as
`x = 2000000000` — the value returned by `generate_random_value` lies in
the half-open interval `[-1.0, 1.0)`. -/
theorem generate_random_value_mem_Ico (x y seed : Int) :
    -1 ≤ generate_random_value x y seed ∧ generate_random_value x y seed < 1 := by
  unfold generate_random_value
  have h1 : 1 ≤ step3 (step2 (step1 x y seed)) := step3_pos _
  have h2 : step3 (step2 (step1 x y seed)) < 2147483648 := step3_lt _
  have hq1 : (1 : ℚ) ≤ (step3 (step2 (step1 x y seed)) : ℚ) := by exact_mod_cast h1
  have hq2 : (step3 (step2 (step1 x y seed)) : ℚ) ≤ 2147483647 := by
    exact_mod_cast Nat.le_of_lt_succ h2
  constructor <;> [linarith; linarith]

/-- C3 counterexample to the parenthetical approximation: the value at
`(0,0,0)` is not approximately `-0.28157` — it lies more than `10^-4`
below it (the true value is `-0.28179...`). -/
theorem generate_zero_far_from_neg_28157 :
    generate_random_value 0 0 0 < -28157 / 100000 - 1 / 10000 := by
  have hm : step3 (step2 (step1 0 0 0)) = 1376312579 := by decide
  unfold generate_random_value
  rw [hm]
  norm_num

/-- C3 (amended): with `x = 0`, `y = 0`, `seed = 0`, step 1 yields
`n = 0`, step 2 yields `n = 0`, and the function returns exactly the
double `1.0 - 1376312579/1073741824.0` (approximately `-0.28179`). -/
theorem generate_zero_eq :
    step1 0 0 0 = 0 ∧ step2 0 = 0 ∧
    generate_random_value 0 0 0 = 1 - 1376312579 / 1073741824 := by
  refine ⟨by decide, by decide, ?_⟩
  have hm : step3 (step2 (step1 0 0 0)) = 1376312579 := by decide
  unfold generate_random_value
  rw [hm]
  norm_num

/-- C4: `generate_random_value` is total: every combination of three
signed integer arguments produces exactly one defined result — there is
no error path, no exception, no partial result, and no input is
rejected.  (The embedding is a total function into `ℚ`; uniqueness of
the value expresses that the result is fully defined.) -/
theorem generate_random_value_total (x y seed : Int) :
    ∃! q : ℚ, generate_random_value x y seed = q :=
  ⟨generate_random_value x y seed, rfl, fun _ h => h.symm⟩

/-- C5: the intermediate of step 1 is non-negative as a signed 32-bit
value and lies in `[0, 2^31 - 1]`, for every input triple: its sign bit
is cleared by the mask, so its signed reading coincides with its bit
pattern. -/
theorem step1_signed_nonneg (x y seed : Int) :
    toSigned (step1 x y seed) = (step1 x y seed : Int) ∧
    0 ≤ toSigned (step1 x y seed) ∧ toSigned (step1 x y seed) ≤ 2147483647 := by
  have h := step1_lt x y seed
  unfold toSigned
  rw [if_pos h]
  refine ⟨rfl, Int.natCast_nonneg _, ?_⟩
  exact_mod_cast (by omega : step1 x y seed ≤ 2147483647)

/-- C6: the four values at `(0,0,0)`, `(1,0,0)`, `(0,1,0)`, `(0,0,1)`
are pairwise distinct. -/
theorem generate_unit_offsets_distinct :
    generate_random_value 0 0 0 ≠ generate_random_value 1 0 0 ∧
    generate_random_value 0 0 0 ≠ generate_random_value 0 1 0 ∧
    generate_random_value 0 0 0 ≠ generate_random_value 0 0 1 ∧
    generate_random_value 1 0 0 ≠ generate_random_value 0 1 0 ∧
    generate_random_value 1 0 0 ≠ generate_random_value 0 0 1 ∧
    generate_random_value 0 1 0 ≠ generate_random_value 0 0 1 := by
  have h000 : step3 (step2 (step1 0 0 0)) = 1376312579 := by decide
  have h100 : step3 (step2 (step1 1 0 0)) = 1893398771 := by decide
  have h010 : step3 (step2 (step1 0 1 0)) = 2080993483 := by decide
  have h001 : step3 (step2 (step1 0 0 1)) = 722033419 := by decide
  unfold generate_random_value
  rw [h000, h100, h010, h001]
  norm_num

/-- C7: `generate_random_value` is deterministic and referentially
transparent: two evaluations at identical arguments return identical
results.  (In this embedding it is a function of its arguments alone, so
no global or hidden state can participate.) -/
theorem generate_random_value_deterministic (x₁ y₁ s₁ x₂ y₂ s₂ : Int)
    (hx : x₁ = x₂) (hy : y₁ = y₂) (hs : s₁ = s₂) :
    generate_random_value x₁ y₁ s₁ = generate_random_value x₂ y₂ s₂ := by
  rw [hx, hy, hs]

theorem generate_random_value_deterministic_witness :
    generate_random_value 0 0 0 = generate_random_value 0 0 0 :=
  generate_random_value_deterministic 0 0 0 0 0 0 rfl rfl rfl

/-- C8: the output depends on the inputs only through the value of
`x*157 + y*31337 + seed*2633` modulo `2^32`: triples with congruent
linear combinations receive identical results. -/
theorem generate_random_value_congr (x₁ y₁ s₁ x₂ y₂ s₂ : Int)
    (h : (x₁ * 157 + y₁ * 31337 + s₁ * 2633) % 4294967296
        = (x₂ * 157 + y₂ * 31337 + s₂ * 2633) % 4294967296) :
    generate_random_value x₁ y₁ s₁ = generate_random_value x₂ y₂ s₂ := by
  have h1 : step1 x₁ y₁ s₁ = step1 x₂ y₂ s₂ := by rw [step1_eq, step1_eq, h]
  unfold generate_random_value
  rw [h1]

theorem generate_random_value_congr_witness :
    ((2633 : Int) * 157 + 0 * 31337 + 0 * 2633) % 4294967296
        = (0 * 157 + 0 * 31337 + 157 * 2633) % 4294967296 ∧
    generate_random_value 2633 0 0 = generate_random_value 0 0 157 :=
  ⟨by norm_num, generate_random_value_congr 2633 0 0 0 0 157 (by norm_num)⟩

/-- C9: the lower end of the range is never attained: every output is at
least `1 - (2^31 - 1)/2^30 = -1 + 2^-30`, hence strictly greater than
`-1`, and the exact value `-1` is returned for no input. -/
theorem generate_random_value_never_neg_one (x y seed : Int) :
    1 - 2147483647 / 1073741824 ≤ generate_random_value x y seed ∧
    -1 < generate_random_value x y seed ∧ generate_random_value x y seed ≠ -1 := by
  unfold generate_random_value
  have h2 : step3 (step2 (step1 x y seed)) < 2147483648 := step3_lt _
  have hq2 : (step3 (step2 (step1 x y seed)) : ℚ) ≤ 2147483647 := by
    exact_mod_cast (by omega : step3 (step2 (step1 x y seed)) ≤ 2147483647)
  have hq0 : (0 : ℚ) ≤ (step3 (step2 (step1 x y seed)) : ℚ) := Nat.cast_nonneg _
  refine ⟨by linarith, by linarith, ?_⟩
  intro hcon
  linarith

/-- C10: every output is quantized to steps of `2^-30`: there is an
integer `k` with `0 ≤ k ≤ 2^31 - 1` such that the result equals exactly
`1 - k/2^30` (hence at most `2^31` distinct outputs, each exactly
representable as an IEEE-754 double). -/
theorem generate_random_value_quantized (x y seed : Int) :
    ∃ k : Nat, k ≤ 2147483647 ∧ generate_random_value x y seed = 1 - (k : ℚ) / 1073741824 :=
  ⟨step3 (step2 (step1 x y seed)),
    by have := step3_lt (step2 (step1 x y seed)); omega, rfl⟩
